import Mathlib

/-!
Shallow embedding of the `ari` bridge client (src/bridges.go): the resource
model (Bridge, CreateBridgeRequest, AddChannelRequest), the bridge controller
operations over an abstract transport facade, and the context propagation
helpers. Machine-level collaborators that live outside this file in the real
repository (the transport facade, the uuid generator, the opaque
Playback/LiveRecording/PlayMediaRequest/RecordRequest shapes) are modelled
from the spec as opaque oracles and opaque payload shapes.
-/

namespace Ari

/-- Bridge describes an Asterisk Bridge (src/bridges.go lines 10-18).
Field names follow the Go struct; the json tags are recorded in the
encoding model below where relevant. -/
structure Bridge where
  Bridge_class : String
  Bridge_type : String
  Channels : List String
  Creator : String
  Id : String
  Name : String
  Technology : String
deriving DecidableEq, Repr

/-- Request structure for creating a bridge (src/bridges.go lines 21-25).
Go zero values for unset string fields are the empty string, mirrored here
by field defaults, so that the Go literal CreateBridgeRequest\x7bId: id\x7d is
the Lean literal with only Id given. The Go field named Type is written
«Type» because Type is reserved in Lean. -/
structure CreateBridgeRequest where
  Id : String := ""
  «Type» : String := ""
  Name : String := ""
deriving DecidableEq, Repr

/-- Request structure to add a channel to a bridge (src/bridges.go lines
29-32). Only ChannelId (json key "channel") is required; Role is
omitempty. -/
structure AddChannelRequest where
  ChannelId : String
  Role : String := ""
deriving DecidableEq, Repr

/-!
JSON encoding model. The Go transport facade serializes request structs with
encoding/json; the struct tags in src/bridges.go determine the key names and
the omitempty markings. A flat request body is encoded as an ordered list of
key/value pairs (all the request fields in this file are strings). A field
tagged omitempty is dropped exactly when its value is the Go zero value,
which for strings is the empty string.
-/

/-- One JSON field description: key name from the struct tag, current value,
and whether the tag carries omitempty. -/
structure JField where
  key : String
  val : String
  omitempty : Bool
deriving DecidableEq, Repr

/-- Go encoding/json on a flat struct of string fields: emit the fields in
declaration order, dropping a field tagged omitempty whose value is the zero
value (empty string). -/
def encodeFields (fs : List JField) : List (String × String) :=
  List.foldr (fun f acc => if f.omitempty && f.val == "" then acc else (f.key, f.val) :: acc) [] fs

/-- Field list of CreateBridgeRequest per the struct tags on src/bridges.go
lines 22-24: bridgeId,omitempty; type,omitempty; name,omitempty. -/
def CreateBridgeRequest.fields (r : CreateBridgeRequest) : List JField :=
  [⟨"bridgeId", r.Id, true⟩, ⟨"type", r.«Type», true⟩, ⟨"name", r.Name, true⟩]

/-- Serialized form of a CreateBridgeRequest. -/
def encodeCreateBridgeRequest (r : CreateBridgeRequest) : List (String × String) :=
  encodeFields r.fields

/-- Field list of AddChannelRequest per the struct tags on src/bridges.go
lines 30-31: channel (required); role,omitempty. -/
def AddChannelRequest.fields (r : AddChannelRequest) : List JField :=
  [⟨"channel", r.ChannelId, false⟩, ⟨"role", r.Role, true⟩]

/-- Serialized form of an AddChannelRequest. -/
def encodeAddChannelRequest (r : AddChannelRequest) : List (String × String) :=
  encodeFields r.fields

/-- Serialized form of the anonymous remove-channel body (src/bridges.go
lines 106-108): single required field with key "channel". -/
def encodeRemoveChannelRequest (channelId : String) : List (String × String) :=
  encodeFields [⟨"channel", channelId, false⟩]

/-- Serialized form of the anonymous music-on-hold body (src/bridges.go
lines 125-127): single field with tag mohClass,omitempty. -/
def encodeMohRequest (mohClass : String) : List (String × String) :=
  encodeFields [⟨"mohClass", mohClass, true⟩]

/-!
Opaque collaborator shapes. These types are declared elsewhere in the
repository (not under src/), and the spec treats them as opaque payload and
result shapes, so each is modelled as a wrapper around an uninterpreted
string.
-/

/-- Modelled from the spec: PlayMediaRequest is an opaque request payload
shape owned elsewhere; its content is uninterpreted here. -/
structure PlayMediaRequest where
  payload : String
deriving DecidableEq, Repr

/-- Modelled from the spec: RecordRequest is an opaque request payload shape
owned elsewhere; its content is uninterpreted here. -/
structure RecordRequest where
  payload : String
deriving DecidableEq, Repr

/-- Modelled from the spec: Playback is an opaque result resource
representing an in-progress media play operation. -/
structure Playback where
  payload : String
deriving DecidableEq, Repr

/-- Modelled from the spec: LiveRecording is an opaque result resource
representing an in-progress recording. -/
structure LiveRecording where
  payload : String
deriving DecidableEq, Repr

/-- Modelled from the spec: TransportError is the opaque error kind surfaced
by the transport facade (network failure, non-2xx response, body decode
failure), carrying an uninterpreted cause. -/
structure TransportError where
  cause : String
deriving DecidableEq, Repr

/-!
Transport facade model. The facade (AriGet / AriPost / AriDelete on Client)
performs one HTTP round trip: method + path + serialized body, decoding the
response into the target shape or surfacing a TransportError. It is modelled
as an oracle from a call descriptor to a decoded outcome; every controller
operation additionally records the list of calls it issued, so that the
one-call-per-operation and path-composition properties are provable.
-/

/-- HTTP method of a facade call. -/
inductive Method
  | get
  | post
  | delete
deriving DecidableEq, Repr

/-- The decode-target shape a facade call carries (the type of the Go
pointer passed as the decode target; noTarget is the Go nil target). -/
inductive Target
  | noTarget
  | bridge
  | bridgeList
  | playback
  | liveRecording
deriving DecidableEq, Repr

/-- The Lean type a target shape decodes to. -/
def Target.toType : Target → Type
  | .noTarget => Unit
  | .bridge => Bridge
  | .bridgeList => List Bridge
  | .playback => Playback
  | .liveRecording => LiveRecording

/-- A request body handed to the facade for serialization: one constructor
per request shape appearing in src/bridges.go. -/
inductive Body
  | create (req : CreateBridgeRequest)
  | addChannel (req : AddChannelRequest)
  | removeChannel (channelId : String)
  | moh (mohClass : String)
  | playMedia (req : PlayMediaRequest)
  | record (req : RecordRequest)
deriving DecidableEq, Repr

/-- One facade call: method, path, optional request body, decode target. -/
structure AriCall where
  method : Method
  path : String
  body : Option Body
  target : Target

/-- Modelled from the spec: the Client carries the transport facade, an
oracle answering each call with either a TransportError or a decoded value
of the call target shape. -/
structure Client where
  transport : (call : AriCall) → Except TransportError call.target.toType

/-- Facade GET: one round trip, no body. Returns the outcome and records
the single call issued. -/
def Client.AriGet (c : Client) (path : String) (tgt : Target) :
    Except TransportError tgt.toType × List AriCall :=
  (c.transport ⟨Method.get, path, none, tgt⟩, [⟨Method.get, path, none, tgt⟩])

/-- Facade POST: one round trip with an optional serialized body. -/
def Client.AriPost (c : Client) (path : String) (tgt : Target) (body : Option Body) :
    Except TransportError tgt.toType × List AriCall :=
  (c.transport ⟨Method.post, path, body, tgt⟩, [⟨Method.post, path, body, tgt⟩])

/-- Facade DELETE: one round trip with an optional serialized body. -/
def Client.AriDelete (c : Client) (path : String) (tgt : Target) (body : Option Body) :
    Except TransportError tgt.toType × List AriCall :=
  (c.transport ⟨Method.delete, path, body, tgt⟩, [⟨Method.delete, path, body, tgt⟩])

/-!
Bridge controller operations (src/bridges.go lines 36-191). Each returns the
Go (value, error) outcome as an Except, paired with the list of facade calls
issued. The Go pattern `if err != nil then return m, err; return m, nil` is
the match on the facade outcome.
-/

/-- ListBridges: GET /bridges (src/bridges.go lines 36-43). -/
def Client.ListBridges (c : Client) : Except TransportError (List Bridge) × List AriCall :=
  let r := c.AriGet "/bridges" Target.bridgeList
  (match r.1 with
   | Except.error e => Except.error e
   | Except.ok m => Except.ok m,
   r.2)

/-- CreateBridge: POST /bridges (src/bridges.go lines 54-63). -/
def Client.CreateBridge (c : Client) (req : CreateBridgeRequest) :
    Except TransportError Bridge × List AriCall :=
  let r := c.AriPost "/bridges" Target.bridge (some (Body.create req))
  (match r.1 with
   | Except.error e => Except.error e
   | Except.ok m => Except.ok m,
   r.2)

/-- UpsertBridge: POST /bridges/\x7bbridgeId\x7d (src/bridges.go lines 67-76). -/
def Client.UpsertBridge (c : Client) (bridgeId : String) (req : CreateBridgeRequest) :
    Except TransportError Bridge × List AriCall :=
  let r := c.AriPost ("/bridges/" ++ bridgeId) Target.bridge (some (Body.create req))
  (match r.1 with
   | Except.error e => Except.error e
   | Except.ok m => Except.ok m,
   r.2)

/-- GetBridge: GET /bridges/\x7bbridgeId\x7d (src/bridges.go lines 80-87). -/
def Client.GetBridge (c : Client) (bridgeId : String) :
    Except TransportError Bridge × List AriCall :=
  let r := c.AriGet ("/bridges/" ++ bridgeId) Target.bridge
  (match r.1 with
   | Except.error e => Except.error e
   | Except.ok m => Except.ok m,
   r.2)

/-- AddChannel: POST /bridges/\x7bbridgeId\x7d/addChannel, nil decode target
(src/bridges.go lines 91-100). -/
def Client.AddChannel (c : Client) (bridgeId : String) (req : AddChannelRequest) :
    Except TransportError Unit × List AriCall :=
  let r := c.AriPost ("/bridges/" ++ bridgeId ++ "/addChannel") Target.noTarget
    (some (Body.addChannel req))
  (match r.1 with
   | Except.error e => Except.error e
   | Except.ok m => Except.ok m,
   r.2)

/-- RemoveChannel: POST /bridges/\x7bbridgeId\x7d/removeChannel with the anonymous
single-field body (src/bridges.go lines 104-118). -/
def Client.RemoveChannel (c : Client) (bridgeId : String) (channelId : String) :
    Except TransportError Unit × List AriCall :=
  let r := c.AriPost ("/bridges/" ++ bridgeId ++ "/removeChannel") Target.noTarget
    (some (Body.removeChannel channelId))
  (match r.1 with
   | Except.error e => Except.error e
   | Except.ok m => Except.ok m,
   r.2)

/-- PlayMusicOnHold: POST /bridges/\x7bbridgeId\x7d/moh with the anonymous
mohClass,omitempty body (src/bridges.go lines 122-137). -/
def Client.PlayMusicOnHold (c : Client) (bridgeId : String) (mohClass : String) :
    Except TransportError Unit × List AriCall :=
  let r := c.AriPost ("/bridges/" ++ bridgeId ++ "/moh") Target.noTarget
    (some (Body.moh mohClass))
  (match r.1 with
   | Except.error e => Except.error e
   | Except.ok m => Except.ok m,
   r.2)

/-- PlayToBridge: POST /bridges/\x7bbridgeId\x7d/play (src/bridges.go lines
141-150). -/
def Client.PlayToBridge (c : Client) (bridgeId : String) (req : PlayMediaRequest) :
    Except TransportError Playback × List AriCall :=
  let r := c.AriPost ("/bridges/" ++ bridgeId ++ "/play") Target.playback
    (some (Body.playMedia req))
  (match r.1 with
   | Except.error e => Except.error e
   | Except.ok m => Except.ok m,
   r.2)

/-- PlayToBridgeById: POST /bridges/\x7bbridgeId\x7d/play/\x7bplaybackId\x7d
(src/bridges.go lines 154-162). -/
def Client.PlayToBridgeById (c : Client) (bridgeId : String) (playbackId : String)
    (req : PlayMediaRequest) : Except TransportError Playback × List AriCall :=
  let r := c.AriPost ("/bridges/" ++ bridgeId ++ "/play/" ++ playbackId) Target.playback
    (some (Body.playMedia req))
  (match r.1 with
   | Except.error e => Except.error e
   | Except.ok m => Except.ok m,
   r.2)

/-- RecordBridge: POST /bridges/\x7bbridgeId\x7d/record (src/bridges.go lines
166-176). -/
def Client.RecordBridge (c : Client) (bridgeId : String) (req : RecordRequest) :
    Except TransportError LiveRecording × List AriCall :=
  let r := c.AriPost ("/bridges/" ++ bridgeId ++ "/record") Target.liveRecording
    (some (Body.record req))
  (match r.1 with
   | Except.error e => Except.error e
   | Except.ok m => Except.ok m,
   r.2)

/-- BridgeDelete: DELETE /bridges/\x7bbridgeId\x7d, error returned as-is
(src/bridges.go lines 181-184). -/
def Client.BridgeDelete (c : Client) (bridgeId : String) :
    Except TransportError Unit × List AriCall :=
  let r := c.AriDelete ("/bridges/" ++ bridgeId) Target.noTarget none
  (r.1, r.2)

/-- BridgeStopMoh: DELETE /bridges/\x7bbridgeId\x7d/moh, error returned as-is
(src/bridges.go lines 188-191). -/
def Client.BridgeStopMoh (c : Client) (bridgeId : String) :
    Except TransportError Unit × List AriCall :=
  let r := c.AriDelete ("/bridges/" ++ bridgeId ++ "/moh") Target.noTarget none
  (r.1, r.2)

/-!
Unique identifier generation. The uuid package is external; the spec treats
it as an opaque NewUniqueId capability. It is modelled as a stream of ids
indexed by a call counter, so one generator call advances the counter by
one.
-/

/-- Modelled from the spec: the opaque unique-id generator, as the stream of
ids it would return on successive calls. -/
structure UuidGen where
  fresh : Nat → String

/-- One call to the generator: return the next id and advance the counter. -/
def uuidNew (g : UuidGen) (n : Nat) : String × Nat :=
  (g.fresh n, n + 1)

/-- NewBridge (src/bridges.go lines 47-50): generate one fresh id and
delegate to UpsertBridge with that id as path segment and as the Id field of
the request. Takes and returns the generator counter. -/
def Client.NewBridge (c : Client) (g : UuidGen) (n : Nat) :
    (Except TransportError Bridge × List AriCall) × Nat :=
  let p := uuidNew g n
  (c.UpsertBridge p.1 { Id := p.1 }, p.2)

/-!
Context propagation helpers (src/bridges.go lines 197-220). The Go
context.Context is an immutable hierarchical key-value carrier: WithValue
wraps a parent with one key-value pair, and Value walks outward to the
first matching key. Keys compare by value AND dynamic type, so the private
bridgeKey string type (line 198) never collides with keys of other types;
this is modelled by tagging keys with their type. Stored values are dynamic
(interface) values; the type assertion .(*Bridge) on retrieval succeeds
exactly when the stored dynamic type is *Bridge, and a *Bridge may itself
be nil, so a stored bridge pointer is an Option Bridge.
-/

/-- A context key: either the package-private bridgeKey string type, or a
key of any other dynamic type (uninterpreted). -/
inductive CtxKey
  | bridgeKey (name : String)
  | otherKey (tag : String)
deriving DecidableEq, Repr

/-- A dynamic value stored in a context: a *Bridge (possibly nil), or a
value of any other dynamic type (uninterpreted). -/
inductive GoValue
  | bridgePtr (b : Option Bridge)
  | otherVal (tag : String)
deriving DecidableEq, Repr

/-- The context carrier: an empty root, or a parent wrapped with one
key-value pair (context.WithValue). -/
inductive Context
  | background
  | withValue (parent : Context) (k : CtxKey) (v : GoValue)
deriving DecidableEq, Repr

/-- Context value lookup (ctx.Value(key)): the innermost wrapping with a
matching key wins; none when no wrapping matches. -/
def Context.value : Context → CtxKey → Option GoValue
  | Context.background, _ => none
  | Context.withValue p k v, k' => if k' = k then some v else p.value k'

/-- The Go type assertion v.(*Bridge) with the comma-ok form applied to the
result of a context lookup: yields the bridge pointer and true when the
stored dynamic type is *Bridge, and (nil, false) when the lookup missed or
the stored value has another type. -/
def assertBridgePtr : Option GoValue → Option Bridge × Bool
  | some (GoValue.bridgePtr b) => (b, true)
  | _ => (none, false)

/-- NewBridgeContextWithKey (src/bridges.go lines 207-209): wrap the context
with the bridge stored under the bridgeKey-typed name. -/
def NewBridgeContextWithKey (ctx : Context) (b : Option Bridge) (name : String) : Context :=
  Context.withValue ctx (CtxKey.bridgeKey name) (GoValue.bridgePtr b)

/-- NewBridgeContext (src/bridges.go lines 201-203): attach under the
default name. -/
def NewBridgeContext (ctx : Context) (b : Option Bridge) : Context :=
  NewBridgeContextWithKey ctx b "_default"

/-- BridgeFromContextWithKey (src/bridges.go lines 217-220): look up the
bridgeKey-typed name and type-assert the result to *Bridge. -/
def BridgeFromContextWithKey (ctx : Context) (name : String) : Option Bridge × Bool :=
  assertBridgePtr (ctx.value (CtxKey.bridgeKey name))

/-- BridgeFromContext (src/bridges.go lines 212-214): retrieve under the
default name. -/
def BridgeFromContext (ctx : Context) : Option Bridge × Bool :=
  BridgeFromContextWithKey ctx "_default"

/-!
Concrete sample values used by witness theorems.
-/

/-- A sample bridge whose Id matches the sample generator output. -/
def sampleBridge : Bridge :=
  { Bridge_class := "", Bridge_type := "mixing", Channels := [], Creator := "test",
    Id := "id-0", Name := "b", Technology := "softmix" }

/-- A second sample bridge. -/
def sampleBridge2 : Bridge :=
  { Bridge_class := "", Bridge_type := "holding", Channels := ["c1"], Creator := "test",
    Id := "id-1", Name := "b2", Technology := "softmix" }

/-- A transport answer for every target shape, always succeeding. -/
def okResp : (t : Target) → Except TransportError t.toType
  | Target.noTarget => Except.ok ()
  | Target.bridge => Except.ok sampleBridge
  | Target.bridgeList => Except.ok []
  | Target.playback => Except.ok ⟨""⟩
  | Target.liveRecording => Except.ok ⟨""⟩

/-- A sample client whose transport always succeeds. -/
def sampleClient : Client :=
  ⟨fun call => okResp call.target⟩

/-- A sample generator whose every output is "id-0". -/
def sampleGen : UuidGen :=
  ⟨fun _ => "id-0"⟩

/-- Helper: the Go error-check idiom, a match returning each branch
unchanged, is the identity on the facade outcome. -/
theorem except_match_eta {α : Type} (t : Except TransportError α) :
    (match t with
     | Except.error e => Except.error e
     | Except.ok m => Except.ok m) = t := by
  cases t <;> rfl

/-- Claim C2: attaching a bridge to a context and retrieving under the
default name yields that bridge with a true presence flag; retrieving from
the original, unattached context yields (none, false); and attachment
produces a new carrier distinct from the original. -/
theorem bridgeContext_attach_then_retrieve (ctx : Context) (b : Option Bridge)
    (h : ctx.value (CtxKey.bridgeKey "_default") = none) :
    BridgeFromContext (NewBridgeContext ctx b) = (b, true) ∧
    BridgeFromContext ctx = (none, false) ∧
    NewBridgeContext ctx b ≠ ctx := by
  refine ⟨?_, ?_, ?_⟩
  · simp [BridgeFromContext, BridgeFromContextWithKey, NewBridgeContext,
      NewBridgeContextWithKey, Context.value, assertBridgePtr]
  · simp [BridgeFromContext, BridgeFromContextWithKey, h, assertBridgePtr]
  · intro hEq
    have hs := congrArg sizeOf hEq
    simp [NewBridgeContext, NewBridgeContextWithKey] at hs
    omega

/-- Witness for C2 at the empty context and a concrete bridge. -/
theorem bridgeContext_attach_then_retrieve_witness :
    BridgeFromContext (NewBridgeContext Context.background (some sampleBridge))
      = (some sampleBridge, true) ∧
    BridgeFromContext Context.background = (none, false) ∧
    NewBridgeContext Context.background (some sampleBridge) ≠ Context.background :=
  bridgeContext_attach_then_retrieve Context.background (some sampleBridge) rfl

/-- Claim C6: retrieval never faults; when the lookup under the
bridgeKey-typed name misses, or the stored value has a dynamic type other
than a bridge pointer, retrieval returns (none, false). -/
theorem bridgeFromContext_total_lookup (ctx : Context) (name : String) :
    (ctx.value (CtxKey.bridgeKey name) = none →
      BridgeFromContextWithKey ctx name = (none, false)) ∧
    (∀ t, ctx.value (CtxKey.bridgeKey name) = some (GoValue.otherVal t) →
      BridgeFromContextWithKey ctx name = (none, false)) := by
  constructor
  · intro h
    simp [BridgeFromContextWithKey, h, assertBridgePtr]
  · intro t h
    simp [BridgeFromContextWithKey, h, assertBridgePtr]

/-- Witness for C6: a missing key on the empty context, and a stored value
of another dynamic type, both retrieve as (none, false). -/
theorem bridgeFromContext_total_lookup_witness :
    BridgeFromContextWithKey Context.background "k" = (none, false) ∧
    BridgeFromContextWithKey
      (Context.withValue Context.background (CtxKey.bridgeKey "k") (GoValue.otherVal "s")) "k"
      = (none, false) :=
  ⟨(bridgeFromContext_total_lookup Context.background "k").1 rfl,
   (bridgeFromContext_total_lookup
      (Context.withValue Context.background (CtxKey.bridgeKey "k") (GoValue.otherVal "s")) "k").2
      "s" (by decide)⟩

/-- Claim C7: attaching b1 under the default name and then b2 under a
distinct name n leaves both retrievable (default lookup finds b1, lookup
under n finds b2), and an attachment under n leaves lookups under every
other name unchanged. -/
theorem bridgeContext_coexist (ctx : Context) (b1 b2 : Option Bridge) (n : String)
    (hn : n ≠ "_default") :
    BridgeFromContext (NewBridgeContextWithKey (NewBridgeContext ctx b1) b2 n) = (b1, true) ∧
    BridgeFromContextWithKey (NewBridgeContextWithKey (NewBridgeContext ctx b1) b2 n) n
      = (b2, true) ∧
    ∀ m, m ≠ n →
      BridgeFromContextWithKey (NewBridgeContextWithKey ctx b2 n) m
        = BridgeFromContextWithKey ctx m := by
  refine ⟨?_, ?_, ?_⟩
  · simp [BridgeFromContext, BridgeFromContextWithKey, NewBridgeContext,
      NewBridgeContextWithKey, Context.value, assertBridgePtr, Ne.symm hn]
  · simp [BridgeFromContext, BridgeFromContextWithKey, NewBridgeContext,
      NewBridgeContextWithKey, Context.value, assertBridgePtr]
  · intro m hm
    simp [BridgeFromContextWithKey, NewBridgeContextWithKey, Context.value, hm]

/-- Witness for C7 at the empty context, two concrete bridges, the name
"peer" and the unrelated name "other". -/
theorem bridgeContext_coexist_witness :
    BridgeFromContext
      (NewBridgeContextWithKey (NewBridgeContext Context.background (some sampleBridge))
        (some sampleBridge2) "peer") = (some sampleBridge, true) ∧
    BridgeFromContextWithKey
      (NewBridgeContextWithKey (NewBridgeContext Context.background (some sampleBridge))
        (some sampleBridge2) "peer") "peer" = (some sampleBridge2, true) ∧
    BridgeFromContextWithKey (NewBridgeContextWithKey Context.background (some sampleBridge2) "peer")
      "other" = BridgeFromContextWithKey Context.background "other" :=
  ⟨(bridgeContext_coexist Context.background (some sampleBridge) (some sampleBridge2) "peer"
      (by decide)).1,
   (bridgeContext_coexist Context.background (some sampleBridge) (some sampleBridge2) "peer"
      (by decide)).2.1,
   (bridgeContext_coexist Context.background (some sampleBridge) (some sampleBridge2) "peer"
      (by decide)).2.2 "other" (by decide)⟩

/-- Claim C10: attaching a nil bridge pointer and retrieving under the same
name yields (none, true): the presence flag reports that an attachment
exists even though the attached bridge is nil. -/
theorem bridgeContext_nil_attach (ctx : Context) (name : String) :
    BridgeFromContextWithKey (NewBridgeContextWithKey ctx none name) name = (none, true) := by
  simp [BridgeFromContextWithKey, NewBridgeContextWithKey, Context.value, assertBridgePtr]

/-- Claim C3: serializing a CreateBridgeRequest with only Name set yields at
most the "name" key (never "bridgeId" or "type"), and in general every
omitempty-tagged field is entirely absent from the payload exactly when
unset: the key lists of the encoded request bodies are pinned. -/
theorem encode_omitempty_absent (id ty name : String) (a : AddChannelRequest) (moh : String) :
    encodeCreateBridgeRequest { Id := "", «Type» := "", Name := name }
      = (if name = "" then [] else [("name", name)]) ∧
    (encodeCreateBridgeRequest { Id := id, «Type» := ty, Name := name }).map Prod.fst
      = (if id = "" then [] else ["bridgeId"]) ++ (if ty = "" then [] else ["type"])
        ++ (if name = "" then [] else ["name"]) ∧
    (encodeAddChannelRequest a).map Prod.fst
      = "channel" :: (if a.Role = "" then [] else ["role"]) ∧
    (encodeMohRequest moh).map Prod.fst = (if moh = "" then [] else ["mohClass"]) := by
  refine ⟨?_, ?_, ?_, ?_⟩ <;>
    · simp only [encodeCreateBridgeRequest, encodeAddChannelRequest, encodeMohRequest,
        CreateBridgeRequest.fields, AddChannelRequest.fields, encodeFields, List.foldr,
        Bool.true_and, Bool.false_and, beq_iff_eq]
      split_ifs <;> simp_all

/-- Claim C4: every bridge controller operation issues exactly one facade
call, whose method and path are those of the wire table, the path being
plain string concatenation of the resource root, the caller-supplied id and
the literal action suffix, with no sanitization of the id. -/
theorem bridge_ops_one_call_wire (c : Client) (id playbackId channelId mohClass : String)
    (cr : CreateBridgeRequest) (ar : AddChannelRequest) (pr : PlayMediaRequest)
    (rr : RecordRequest) :
    (c.ListBridges).2 = [⟨Method.get, "/bridges", none, Target.bridgeList⟩] ∧
    (c.CreateBridge cr).2 = [⟨Method.post, "/bridges", some (Body.create cr), Target.bridge⟩] ∧
    (c.UpsertBridge id cr).2
      = [⟨Method.post, "/bridges/" ++ id, some (Body.create cr), Target.bridge⟩] ∧
    (c.GetBridge id).2 = [⟨Method.get, "/bridges/" ++ id, none, Target.bridge⟩] ∧
    (c.AddChannel id ar).2
      = [⟨Method.post, "/bridges/" ++ id ++ "/addChannel", some (Body.addChannel ar),
          Target.noTarget⟩] ∧
    (c.RemoveChannel id channelId).2
      = [⟨Method.post, "/bridges/" ++ id ++ "/removeChannel", some (Body.removeChannel channelId),
          Target.noTarget⟩] ∧
    (c.PlayMusicOnHold id mohClass).2
      = [⟨Method.post, "/bridges/" ++ id ++ "/moh", some (Body.moh mohClass),
          Target.noTarget⟩] ∧
    (c.PlayToBridge id pr).2
      = [⟨Method.post, "/bridges/" ++ id ++ "/play", some (Body.playMedia pr),
          Target.playback⟩] ∧
    (c.PlayToBridgeById id playbackId pr).2
      = [⟨Method.post, "/bridges/" ++ id ++ "/play/" ++ playbackId, some (Body.playMedia pr),
          Target.playback⟩] ∧
    (c.RecordBridge id rr).2
      = [⟨Method.post, "/bridges/" ++ id ++ "/record", some (Body.record rr),
          Target.liveRecording⟩] ∧
    (c.BridgeDelete id).2 = [⟨Method.delete, "/bridges/" ++ id, none, Target.noTarget⟩] ∧
    (c.BridgeStopMoh id).2
      = [⟨Method.delete, "/bridges/" ++ id ++ "/moh", none, Target.noTarget⟩] :=
  ⟨rfl, rfl, rfl, rfl, rfl, rfl, rfl, rfl, rfl, rfl, rfl, rfl⟩

/-- Claim C5: every operation returns exactly the facade outcome for its one
call: a facade error is propagated unchanged (no retry, no default result),
and a facade success is returned as the decoded value with no error;
side-effect-only operations carry no value, so success is exactly the
absence of an error. -/
theorem bridge_ops_propagate (c : Client) (id playbackId channelId mohClass : String)
    (cr : CreateBridgeRequest) (ar : AddChannelRequest) (pr : PlayMediaRequest)
    (rr : RecordRequest) :
    (c.ListBridges).1 = c.transport ⟨Method.get, "/bridges", none, Target.bridgeList⟩ ∧
    (c.CreateBridge cr).1
      = c.transport ⟨Method.post, "/bridges", some (Body.create cr), Target.bridge⟩ ∧
    (c.UpsertBridge id cr).1
      = c.transport ⟨Method.post, "/bridges/" ++ id, some (Body.create cr), Target.bridge⟩ ∧
    (c.GetBridge id).1 = c.transport ⟨Method.get, "/bridges/" ++ id, none, Target.bridge⟩ ∧
    (c.AddChannel id ar).1
      = c.transport ⟨Method.post, "/bridges/" ++ id ++ "/addChannel", some (Body.addChannel ar),
          Target.noTarget⟩ ∧
    (c.RemoveChannel id channelId).1
      = c.transport ⟨Method.post, "/bridges/" ++ id ++ "/removeChannel",
          some (Body.removeChannel channelId), Target.noTarget⟩ ∧
    (c.PlayMusicOnHold id mohClass).1
      = c.transport ⟨Method.post, "/bridges/" ++ id ++ "/moh", some (Body.moh mohClass),
          Target.noTarget⟩ ∧
    (c.PlayToBridge id pr).1
      = c.transport ⟨Method.post, "/bridges/" ++ id ++ "/play", some (Body.playMedia pr),
          Target.playback⟩ ∧
    (c.PlayToBridgeById id playbackId pr).1
      = c.transport ⟨Method.post, "/bridges/" ++ id ++ "/play/" ++ playbackId,
          some (Body.playMedia pr), Target.playback⟩ ∧
    (c.RecordBridge id rr).1
      = c.transport ⟨Method.post, "/bridges/" ++ id ++ "/record", some (Body.record rr),
          Target.liveRecording⟩ ∧
    (c.BridgeDelete id).1
      = c.transport ⟨Method.delete, "/bridges/" ++ id, none, Target.noTarget⟩ ∧
    (c.BridgeStopMoh id).1
      = c.transport ⟨Method.delete, "/bridges/" ++ id ++ "/moh", none, Target.noTarget⟩ :=
  by
  refine ⟨?_, ?_, ?_, ?_, ?_, ?_, ?_, ?_, ?_, ?_, rfl, rfl⟩
  · cases hc : c.transport ⟨Method.get, "/bridges", none, Target.bridgeList⟩ <;>
      simp [Client.ListBridges, Client.AriGet, hc]
  · cases hc : c.transport ⟨Method.post, "/bridges", some (Body.create cr), Target.bridge⟩ <;>
      simp [Client.CreateBridge, Client.AriPost, hc]
  · cases hc : c.transport
        ⟨Method.post, "/bridges/" ++ id, some (Body.create cr), Target.bridge⟩ <;>
      simp [Client.UpsertBridge, Client.AriPost, hc]
  · cases hc : c.transport ⟨Method.get, "/bridges/" ++ id, none, Target.bridge⟩ <;>
      simp [Client.GetBridge, Client.AriGet, hc]
  · cases hc : c.transport ⟨Method.post, "/bridges/" ++ id ++ "/addChannel",
        some (Body.addChannel ar), Target.noTarget⟩ <;>
      simp [Client.AddChannel, Client.AriPost, hc]
  · cases hc : c.transport ⟨Method.post, "/bridges/" ++ id ++ "/removeChannel",
        some (Body.removeChannel channelId), Target.noTarget⟩ <;>
      simp [Client.RemoveChannel, Client.AriPost, hc]
  · cases hc : c.transport ⟨Method.post, "/bridges/" ++ id ++ "/moh",
        some (Body.moh mohClass), Target.noTarget⟩ <;>
      simp [Client.PlayMusicOnHold, Client.AriPost, hc]
  · cases hc : c.transport ⟨Method.post, "/bridges/" ++ id ++ "/play",
        some (Body.playMedia pr), Target.playback⟩ <;>
      simp [Client.PlayToBridge, Client.AriPost, hc]
  · cases hc : c.transport ⟨Method.post, "/bridges/" ++ id ++ "/play/" ++ playbackId,
        some (Body.playMedia pr), Target.playback⟩ <;>
      simp [Client.PlayToBridgeById, Client.AriPost, hc]
  · cases hc : c.transport ⟨Method.post, "/bridges/" ++ id ++ "/record",
        some (Body.record rr), Target.liveRecording⟩ <;>
      simp [Client.RecordBridge, Client.AriPost, hc]

/-- Claim C8: PlayMusicOnHold issues its one call with the anonymous moh
body, whose serialization is the empty object when mohClass is empty (no
"mohClass" key at all) and exactly the single mohClass field otherwise. -/
theorem playMusicOnHold_body (c : Client) (id mohClass : String) :
    (c.PlayMusicOnHold id mohClass).2
      = [⟨Method.post, "/bridges/" ++ id ++ "/moh", some (Body.moh mohClass),
          Target.noTarget⟩] ∧
    encodeMohRequest mohClass
      = (if mohClass = "" then [] else [("mohClass", mohClass)]) := by
  refine ⟨rfl, ?_⟩
  simp only [encodeMohRequest, encodeFields, List.foldr, Bool.true_and, beq_iff_eq]

/-- Claim C9: AddChannel issues its one call carrying the request verbatim,
and the serialized body places ChannelId unchanged under the required
"channel" key (never split, validated or rejected), with the "role" key
present exactly when Role is non-empty. -/
theorem addChannel_body (c : Client) (id : String) (a : AddChannelRequest) :
    (c.AddChannel id a).2
      = [⟨Method.post, "/bridges/" ++ id ++ "/addChannel", some (Body.addChannel a),
          Target.noTarget⟩] ∧
    encodeAddChannelRequest a
      = ("channel", a.ChannelId) :: (if a.Role = "" then [] else [("role", a.Role)]) := by
  refine ⟨rfl, ?_⟩
  simp only [encodeAddChannelRequest, AddChannelRequest.fields, encodeFields, List.foldr,
    Bool.true_and, Bool.false_and, beq_iff_eq]
  split_ifs <;> simp_all

/-- Claim C1: NewBridge makes exactly one call to the unique-id generator
(the counter advances by exactly one) and returns exactly the result of
UpsertBridge applied to the generated id both as the path segment and as
the Id field of the request body; consequently, when the transport honors
the upsert contract for that call (the decoded bridge carries the path id),
a successful NewBridge returns a bridge carrying the generated id. -/
theorem newBridge_one_id_upsert (c : Client) (g : UuidGen) (n : Nat)
    (hb : ∀ b, c.transport ⟨Method.post, "/bridges/" ++ g.fresh n,
        some (Body.create { Id := g.fresh n }), Target.bridge⟩ = Except.ok b →
        b.Id = g.fresh n) :
    c.NewBridge g n = (c.UpsertBridge (g.fresh n) { Id := g.fresh n }, n + 1) ∧
    ∀ b, (c.NewBridge g n).1.1 = Except.ok b → b.Id = g.fresh n := by
  constructor
  · rfl
  · intro b h
    have he : (c.NewBridge g n).1.1
        = c.transport ⟨Method.post, "/bridges/" ++ g.fresh n,
            some (Body.create { Id := g.fresh n }), Target.bridge⟩ := by
      cases hc : c.transport ⟨Method.post, "/bridges/" ++ g.fresh n,
          some (Body.create { Id := g.fresh n }), Target.bridge⟩ <;>
        simp [Client.NewBridge, Client.UpsertBridge, Client.AriPost, uuidNew, hc]
    exact hb b (he.symm.trans h)

/-- Witness for C1 at the sample client (whose transport answers the upsert
with sampleBridge, which carries the generated id) and sample generator. -/
theorem newBridge_one_id_upsert_witness :
    sampleClient.NewBridge sampleGen 0
      = (sampleClient.UpsertBridge "id-0" { Id := "id-0" }, 1) ∧
    sampleBridge.Id = "id-0" := by
  have hb : ∀ b, sampleClient.transport ⟨Method.post, "/bridges/" ++ "id-0",
      some (Body.create { Id := "id-0" }), Target.bridge⟩ = Except.ok b →
      b.Id = "id-0" := by
    intro b h
    injection h with h2
    rw [← h2]
    rfl
  exact ⟨(newBridge_one_id_upsert sampleClient sampleGen 0 hb).1,
    (newBridge_one_id_upsert sampleClient sampleGen 0 hb).2 sampleBridge rfl⟩

end Ari
